import Mathlib

/-!
Verification of `scrapy/utils/deprecate.py`.

The module provides two deprecation helpers:
* `attribute`: emits one `ScrapyDeprecationWarning` about a renamed attribute;
* `create_deprecated_class`: builds a placeholder metaclass-backed "root"
  class that warns on direct instantiation, warns when subclassed, and
  overrides `issubclass` / `isinstance` so that subclasses of the
  replacement class still test positive.

We embed the Python semantics shallowly:
* a Python class is a `ClassObj`: an identity (`cid`, standing for the
  object identity used by `is` / set membership in the source), a name, a
  `__module__`, the list of direct bases, the method-resolution order
  (`__mro__`, as a list of class identities), and the class namespace
  (`dict`, keys mapped to opaque member values);
* a Python instance carries its `type(...)` and its `__class__` (which may
  differ in Python, as the source's `__instancecheck__` anticipates);
* `warnings.warn(msg, category, stacklevel)` appends a `PyWarning` record
  to a warning channel; the per-factory-call metaclass state
  (`DeprecatedClass.deprecated_class`) together with that channel forms a
  `FactoryState` that the stateful operations thread explicitly;
* raising `TypeError` is modelled with `Except String`.
-/

/-- A Python class object, as far as `deprecate.py` observes one. -/
structure ClassObj where
  cid : Nat
  name : String
  module : String
  bases : List Nat
  mro : List Nat
  dict : List (String × Nat)
deriving DecidableEq, Repr

/-- A Python instance: its runtime `type(...)` and its declared
`__class__` attribute (these can differ for proxy objects). -/
structure PyInstance where
  type_ : ClassObj
  class_ : ClassObj
deriving DecidableEq, Repr

/-- An arbitrary Python value handed to `__subclasscheck__`: either a
class or a non-class object. -/
inductive PyVal where
  | cls (c : ClassObj)
  | obj (i : PyInstance)
deriving DecidableEq, Repr

/-- One record sent to the warning channel by `warnings.warn`. -/
structure PyWarning where
  message : String
  category : String
  stacklevel : Nat
deriving DecidableEq, Repr

/-- The warning category `scrapy.exceptions.ScrapyDeprecationWarning`,
identified by its name. -/
def ScrapyDeprecationWarning : String := "ScrapyDeprecationWarning"

/-- `_clspath(cls)`: `'{}.{}'.format(cls.__module__, cls.__name__)`. -/
def _clspath (cls : ClassObj) : String :=
  cls.module ++ "." ++ cls.name

/-- `attribute(obj, oldattr, newattr, version='0.12')`: formats the fixed
message template from the instance's class name, the attribute names and
the version, and emits it as one `ScrapyDeprecationWarning` at
`stacklevel=3`.  The function returns the warnings it emits. -/
def «attribute» (obj : PyInstance) (oldattr newattr : String)
    (version : String := "0.12") : List PyWarning :=
  let cname := obj.class_.name
  [⟨cname ++ "." ++ oldattr ++ " attribute is deprecated and will be no longer supported " ++
      "in Scrapy " ++ version ++ ", use " ++ cname ++ "." ++ newattr ++ " attribute instead",
    ScrapyDeprecationWarning, 3⟩]

/-- The default `subclass_warn_message` template,
`"{cls} inherits from deprecated class {old}, please inherit from {new}."`,
applied to its three substitutions. -/
def subclass_warn_message (cls old new : String) : String :=
  cls ++ " inherits from deprecated class " ++ old ++ ", please inherit from " ++ new ++ "."

/-- The default `instance_warn_message` template,
`"{cls} is deprecated, instantiate {new} instead."`,
applied to its two substitutions. -/
def instance_warn_message (cls new : String) : String :=
  cls ++ " is deprecated, instantiate " ++ new ++ " instead."

/-- `DeprecatedClass.__subclasscheck__(cls, sub)` for a `sub` already
known to be a class: `candidates = {cls, new_class}` and the check
succeeds iff some entry of `sub.__mro__` is one of the candidates.
`cls` and `new_class` enter only through their identities. -/
def subclasscheckCls (clsId newClassId : Nat) (sub : ClassObj) : Bool :=
  sub.mro.any fun c => c = clsId || c = newClassId

/-- `DeprecatedClass.__subclasscheck__(cls, sub)` in full: a non-class
argument raises `TypeError("issubclass() arg 1 must be a class")`;
otherwise the mro scan of `subclasscheckCls` decides. -/
def subclasscheck (clsId newClassId : Nat) (sub : PyVal) : Except String Bool :=
  match sub with
  | .cls c => .ok (subclasscheckCls clsId newClassId c)
  | .obj _ => .error "issubclass() arg 1 must be a class"

/-- `DeprecatedClass.__instancecheck__(cls, inst)`:
`any(cls.__subclasscheck__(c) for c in {type(inst), inst.__class__})`.
Both members of the set are classes, so no `TypeError` can arise. -/
def instancecheck (clsId newClassId : Nat) (inst : PyInstance) : Bool :=
  subclasscheckCls clsId newClassId inst.type_ ||
    subclasscheckCls clsId newClassId inst.class_

/-- Per-factory-call state: the metaclass attribute
`DeprecatedClass.deprecated_class` (initially `None`) together with the
warning channel the call's warnings go to.  Each invocation of
`create_deprecated_class` defines its own fresh `DeprecatedClass`
metaclass, hence its own state. -/
structure FactoryState where
  deprecated_class : Option ClassObj
  warnings : List PyWarning
deriving DecidableEq, Repr

/-- `DeprecatedClass.__new__(metacls, name, bases, clsdict_)`: the
superclass `type.__new__` has already produced the class object `cls`;
if `metacls.deprecated_class is None` it is set to `cls`. -/
def DeprecatedClass_new (st : FactoryState) (cls : ClassObj) :
    FactoryState × ClassObj :=
  match st.deprecated_class with
  | none => ({ st with deprecated_class := some cls }, cls)
  | some _ => (st, cls)

/-- `DeprecatedClass.__init__(cls, name, bases, clsdict_)`:
`old = cls.__class__.deprecated_class`; if `cls is not old` ( identity,
i.e. `cid` inequality) a warning formatted from the default
`subclass_warn_message` template is emitted with the factory's
`warn_category` at `stacklevel=2`.  `__init__` runs after `__new__`, so
`deprecated_class` is never `None` here; the `none` branch is dead code
and leaves the state unchanged. -/
def DeprecatedClass_init (new_class : ClassObj) (warn_category : String)
    (st : FactoryState) (cls : ClassObj) : FactoryState :=
  match st.deprecated_class with
  | some old =>
      if cls.cid ≠ old.cid then
        { st with warnings := st.warnings ++
            [⟨subclass_warn_message (_clspath cls) (_clspath old) (_clspath new_class),
              warn_category, 2⟩] }
      else st
  | none => st

/-- Constructing a class through the `DeprecatedClass` metaclass: Python's
`type.__call__` on the metaclass runs `__new__` then `__init__` on the
freshly built class object. -/
def constructClass (new_class : ClassObj) (warn_category : String)
    (st : FactoryState) (cls : ClassObj) : FactoryState × ClassObj :=
  let p := DeprecatedClass_new st cls
  (DeprecatedClass_init new_class warn_category p.1 p.2, p.2)

/-- A user declaration `class S(base): ...` where `base` carries the
`DeprecatedClass` metaclass: Python builds the class object with the
declared name, the single base, the C3 mro `S :: base.__mro__`, and the
body namespace, then routes it through the metaclass constructor. -/
def declareSubclass (new_class : ClassObj) (warn_category : String)
    (st : FactoryState) (sid : Nat) (sname smodule : String)
    (base : ClassObj) (sdict : List (String × Nat)) :
    FactoryState × ClassObj :=
  constructClass new_class warn_category st
    ⟨sid, sname, smodule, [base.cid], sid :: base.mro, sdict⟩

/-- `DeprecatedClass.__call__(cls, *args, **kwargs)`: instantiating `cls`.
If `cls is cls.__class__.deprecated_class` a warning formatted from the
default `instance_warn_message` template is emitted at `stacklevel=2`;
then `super().__call__` builds the instance (whose `type` and
`__class__` are both `cls`). -/
def DeprecatedClass_call (new_class : ClassObj) (warn_category : String)
    (st : FactoryState) (cls : ClassObj) : FactoryState × PyInstance :=
  let st1 :=
    if st.deprecated_class.map ClassObj.cid = some cls.cid then
      { st with warnings := st.warnings ++
          [⟨instance_warn_message (_clspath cls) (_clspath new_class),
            warn_category, 2⟩] }
    else st
  (st1, ⟨cls, cls⟩)

/-- `create_deprecated_class(name, new_class, clsdict=None, ...)`:
starts from a fresh metaclass state (`deprecated_class = None`, nothing
warned yet), evaluates
`deprecated_cls = DeprecatedClass(name, (new_class,), clsdict or {})`
— the class object has the single base `new_class`, mro
`deprecated_cls :: new_class.__mro__`, and namespace `clsdict or {}` —
and then tries to set `deprecated_cls.__module__` to the caller's module
name, skipping the step when `inspect.getmodule` returned `None`.
Python's `__module__` assignment mutates the very object stored in
`deprecated_class`, so the stored root is updated alongside.
`rootId` is the fresh identity of the created class object and
`initModule` the `__module__` that `type.__new__` gave it. -/
def create_deprecated_class (rootId : Nat) (name initModule : String)
    (new_class : ClassObj) (clsdict : Option (List (String × Nat)))
    (warn_category : String) (callerModule : Option String) :
    ClassObj × FactoryState :=
  let st0 : FactoryState := ⟨none, []⟩
  let cls0 : ClassObj :=
    ⟨rootId, name, initModule, [new_class.cid], rootId :: new_class.mro, clsdict.getD []⟩
  let p := constructClass new_class warn_category st0 cls0
  match callerModule with
  | some m =>
      ({ p.2 with module := m },
       { p.1 with deprecated_class := p.1.deprecated_class.map fun o =>
           if o.cid = p.2.cid then { o with module := m } else o })
  | none => (p.2, p.1)

/-- A sequence of later class constructions through the same
type-constructor, folding the metaclass state. -/
def constructMany (new_class : ClassObj) (warn_category : String)
    (st : FactoryState) (cs : List ClassObj) : FactoryState :=
  cs.foldl (fun s c => (constructClass new_class warn_category s c).1) st

/-- `sub.data` occurs contiguously inside `s.data`: the notion of one
string containing another that the warning-message claims use. -/
def strContains (s sub : String) : Prop :=
  sub.data <:+: s.data

/-- The builtin `issubclass(sub, cls)` dispatching to the metaclass's
`__subclasscheck__` against the live factory state: the method body
never calls `warnings.warn`, so the state passes through untouched. -/
def issubclassSt (clsId newClassId : Nat) (st : FactoryState) (sub : PyVal) :
    FactoryState × Except String Bool :=
  (st, subclasscheck clsId newClassId sub)

/-- The builtin `isinstance(inst, cls)` dispatching to the metaclass's
`__instancecheck__` against the live factory state: the method body
never calls `warnings.warn`, so the state passes through untouched. -/
def isinstanceSt (clsId newClassId : Nat) (st : FactoryState) (inst : PyInstance) :
    FactoryState × Bool :=
  (st, instancecheck clsId newClassId inst)

/-- A concrete replacement class (`new_class`) used to instantiate
hypothesis-bearing theorems: its own identity appears in its mro. -/
def sampleNew : ClassObj := ⟨0, "NewName", "newmod", [], [0], []⟩

/-- The factory applied to `sampleNew`: root identity 1, caller module
undetermined. -/
def sampleFactory : ClassObj × FactoryState :=
  create_deprecated_class 1 "OldName" "oldmod" sampleNew none
    ScrapyDeprecationWarning none

/-- A concrete user subclass declaration body for the root of
`sampleFactory`. -/
def sampleSub : ClassObj := ⟨2, "UserSub", "usermod", [1], [2, 1, 0], []⟩

/-- A concrete class unrelated to the factory's classes except that
`sampleNew` appears in its mro. -/
def sampleUnrelated : ClassObj := ⟨7, "Other", "othermod", [], [7, 0], []⟩

/-- A second, unrelated replacement class and factory call, for the
independence claim. -/
def sampleNew2 : ClassObj := ⟨4, "NewB", "modB", [], [4], []⟩

/-- The factory applied to `sampleNew2`: root identity 5. -/
def sampleFactory2 : ClassObj × FactoryState :=
  create_deprecated_class 5 "OldB" "modB" sampleNew2 none
    ScrapyDeprecationWarning none

lemma subclasscheckCls_eq_true (clsId newClassId : Nat) (C : ClassObj) :
    subclasscheckCls clsId newClassId C = true ↔
      clsId ∈ C.mro ∨ newClassId ∈ C.mro := by
  simp only [subclasscheckCls, List.any_eq_true, Bool.or_eq_true, decide_eq_true_eq]
  constructor
  · rintro ⟨c, hc, rfl | rfl⟩
    · exact Or.inl hc
    · exact Or.inr hc
  · rintro (h | h)
    · exact ⟨clsId, h, Or.inl rfl⟩
    · exact ⟨newClassId, h, Or.inr rfl⟩

lemma create_deprecated_class_eq (rootId : Nat) (name im : String) (N : ClassObj)
    (d : Option (List (String × Nat))) (wc : String) (cm : Option String) :
    create_deprecated_class rootId name im N d wc cm =
      (⟨rootId, name, cm.getD im, [N.cid], rootId :: N.mro, d.getD []⟩,
       ⟨some ⟨rootId, name, cm.getD im, [N.cid], rootId :: N.mro, d.getD []⟩, []⟩) := by
  cases cm <;>
    simp [create_deprecated_class, constructClass, DeprecatedClass_new,
      DeprecatedClass_init]

lemma constructClass_snd (N : ClassObj) (wc : String) (st : FactoryState)
    (c : ClassObj) : (constructClass N wc st c).2 = c := by
  cases h : st.deprecated_class <;>
    simp [constructClass, DeprecatedClass_new, h]

lemma constructClass_fst_none (N : ClassObj) (wc : String) (st : FactoryState)
    (c : ClassObj) (h : st.deprecated_class = none) :
    (constructClass N wc st c).1 = { st with deprecated_class := some c } := by
  simp [constructClass, DeprecatedClass_new, DeprecatedClass_init, h]

lemma constructClass_fst_derived (N : ClassObj) (wc : String) (st : FactoryState)
    (r c : ClassObj) (h : st.deprecated_class = some r) (hne : c.cid ≠ r.cid) :
    (constructClass N wc st c).1 =
      { st with warnings := st.warnings ++
          [⟨subclass_warn_message (_clspath c) (_clspath r) (_clspath N), wc, 2⟩] } := by
  simp [constructClass, DeprecatedClass_new, DeprecatedClass_init, h, hne]

lemma constructClass_fst_self (N : ClassObj) (wc : String) (st : FactoryState)
    (r c : ClassObj) (h : st.deprecated_class = some r) (heq : c.cid = r.cid) :
    (constructClass N wc st c).1 = st := by
  simp [constructClass, DeprecatedClass_new, DeprecatedClass_init, h, heq]

lemma constructClass_deprecated_class (N : ClassObj) (wc : String)
    (st : FactoryState) (c : ClassObj) :
    (constructClass N wc st c).1.deprecated_class =
      some (st.deprecated_class.getD c) := by
  cases h : st.deprecated_class with
  | none => simp [constructClass_fst_none N wc st c h]
  | some r =>
      rcases eq_or_ne c.cid r.cid with heq | hne
      · simp [constructClass_fst_self N wc st r c h heq, h]
      · simp [constructClass_fst_derived N wc st r c h hne, h]

lemma strContains_self (s : String) : strContains s s :=
  ⟨[], [], by simp⟩

lemma strContains_append_left (s t sub : String) (h : strContains s sub) :
    strContains (s ++ t) sub := by
  rcases h with ⟨u, v, huv⟩
  exact ⟨u, v ++ t.data, by simp [String.data_append, ← huv]⟩

lemma strContains_append_right (s t sub : String) (h : strContains t sub) :
    strContains (s ++ t) sub := by
  rcases h with ⟨u, v, huv⟩
  exact ⟨s.data ++ u, v, by simp [String.data_append, ← huv]⟩

lemma strContains_subclass_msg_cls (a b c : String) :
    strContains (subclass_warn_message a b c) a := by
  unfold subclass_warn_message
  repeat' apply strContains_append_left
  exact strContains_self a

lemma strContains_subclass_msg_old (a b c : String) :
    strContains (subclass_warn_message a b c) b := by
  unfold subclass_warn_message
  apply strContains_append_left
  apply strContains_append_left
  apply strContains_append_left
  exact strContains_append_right _ _ _ (strContains_self b)

lemma strContains_subclass_msg_new (a b c : String) :
    strContains (subclass_warn_message a b c) c := by
  unfold subclass_warn_message
  apply strContains_append_left
  exact strContains_append_right _ _ _ (strContains_self c)

/-- C1: for the root `R` of `create_deprecated_class(name, N)`, the
subclass test accepts a class `C` iff `N` or `R` appears in `C`'s mro;
the instance test accepts `x` iff `type(x)` or `x.__class__` passes the
subclass test; in particular `issubclass(N, R)` holds, every instance of
`N` is an instance of `R`, and neither check emits a warning. -/
theorem c1_root_check_semantics (rootId : Nat) (name im : String) (N : ClassObj)
    (d : Option (List (String × Nat))) (wc : String) (cm : Option String)
    (R : ClassObj) (st : FactoryState)
    (_hRst : create_deprecated_class rootId name im N d wc cm = (R, st))
    (hN : N.cid ∈ N.mro) :
    (∀ C : ClassObj, subclasscheck R.cid N.cid (.cls C) = .ok true ↔
        (N.cid ∈ C.mro ∨ R.cid ∈ C.mro))
    ∧ (∀ x : PyInstance, instancecheck R.cid N.cid x = true ↔
        (subclasscheck R.cid N.cid (.cls x.type_) = .ok true ∨
         subclasscheck R.cid N.cid (.cls x.class_) = .ok true))
    ∧ subclasscheck R.cid N.cid (.cls N) = .ok true
    ∧ (∀ n : PyInstance, N.cid ∈ n.type_.mro → instancecheck R.cid N.cid n = true)
    ∧ (∀ st' sub, (issubclassSt R.cid N.cid st' sub).1.warnings = st'.warnings)
    ∧ (∀ st' x, (isinstanceSt R.cid N.cid st' x).1.warnings = st'.warnings) := by
  refine ⟨?_, ?_, ?_, ?_, fun st' sub => rfl, fun st' x => rfl⟩
  · intro C
    simp only [subclasscheck, Except.ok.injEq]
    rw [subclasscheckCls_eq_true]
    exact or_comm
  · intro x
    simp [instancecheck, subclasscheck]
  · simp only [subclasscheck, Except.ok.injEq]
    rw [subclasscheckCls_eq_true]
    exact Or.inr hN
  · intro n hn
    simp only [instancecheck, Bool.or_eq_true]
    exact Or.inl ((subclasscheckCls_eq_true _ _ _).mpr (Or.inr hn))

/-- Witness for C1 at `sampleFactory`. -/
theorem c1_root_check_semantics_witness :
    sampleNew.cid ∈ sampleNew.mro ∧
    subclasscheck sampleFactory.1.cid sampleNew.cid (.cls sampleNew) = .ok true :=
  ⟨by decide,
   (c1_root_check_semantics 1 "OldName" "oldmod" sampleNew none
      ScrapyDeprecationWarning none sampleFactory.1 sampleFactory.2 rfl
      (by decide)).2.2.1⟩

/-- C4: handing the subclass test a non-class argument raises
`TypeError("issubclass() arg 1 must be a class")`, returned to the
caller uncaught, and the factory state (hence the warning channel) is
untouched. -/
theorem c4_nonclass_subclasscheck_raises (clsId newClassId : Nat)
    (i : PyInstance) (st : FactoryState) :
    subclasscheck clsId newClassId (.obj i) =
        .error "issubclass() arg 1 must be a class"
    ∧ (issubclassSt clsId newClassId st (.obj i)).1 = st
    ∧ (issubclassSt clsId newClassId st (.obj i)).2 =
        .error "issubclass() arg 1 must be a class" :=
  ⟨rfl, rfl, rfl⟩

/-- C8: the root class is constructed with `new_class` as its sole
direct base, its namespace is the supplied `clsdict`, and an omitted
`clsdict` yields the empty namespace. -/
theorem c8_root_bases_and_namespace (rootId : Nat) (name im : String)
    (N : ClassObj) (d : Option (List (String × Nat))) (wc : String)
    (cm : Option String) :
    (create_deprecated_class rootId name im N d wc cm).1.bases = [N.cid]
    ∧ (create_deprecated_class rootId name im N d wc cm).1.dict = d.getD []
    ∧ (create_deprecated_class rootId name im N none wc cm).1.dict = [] := by
  simp [create_deprecated_class_eq]

/-- C9: the factory records the caller's module name on the root when it
can be determined; otherwise the step is silently skipped, the root is
returned normally (identical apart from `__module__`), and nothing is
raised or warned. -/
theorem c9_caller_module_best_effort (rootId : Nat) (name im : String)
    (N : ClassObj) (d : Option (List (String × Nat))) (wc : String)
    (m : String) :
    (create_deprecated_class rootId name im N d wc (some m)).1.module = m
    ∧ (create_deprecated_class rootId name im N d wc none).1.module = im
    ∧ (create_deprecated_class rootId name im N d wc none).1 =
        { (create_deprecated_class rootId name im N d wc (some m)).1 with
            module := im }
    ∧ (create_deprecated_class rootId name im N d wc none).2.warnings = []
    ∧ (create_deprecated_class rootId name im N d wc (some m)).2.warnings = [] := by
  simp [create_deprecated_class_eq]

/-- C10: every class carrying the factory's metaclass — a user-declared
subclass as much as the root — runs the overridden subclass test with
`new_class` among the candidates, so any class with `new_class` in its
mro tests as a subclass of it, related or not. -/
theorem c10_new_class_always_candidate (N : ClassObj) (wc : String)
    (st : FactoryState) (sid : Nat) (sname smod : String) (base : ClassObj)
    (sdict : List (String × Nat)) (rootId : Nat) (name im : String)
    (d : Option (List (String × Nat))) (cm : Option String)
    (C : ClassObj) (h : N.cid ∈ C.mro) :
    subclasscheck ((declareSubclass N wc st sid sname smod base sdict).2).cid
        N.cid (.cls C) = .ok true
    ∧ subclasscheck ((create_deprecated_class rootId name im N d wc cm).1).cid
        N.cid (.cls C) = .ok true
    ∧ (∀ clsId : Nat, subclasscheckCls clsId N.cid C = true) := by
  have key : ∀ clsId : Nat, subclasscheckCls clsId N.cid C = true :=
    fun clsId => (subclasscheckCls_eq_true _ _ _).mpr (Or.inr h)
  exact ⟨by simp [subclasscheck, key], by simp [subclasscheck, key], key⟩

/-- Witness for C10: `sampleUnrelated` has `sampleNew` in its mro but is
unrelated to the declared subclass, and still tests as its subclass. -/
theorem c10_new_class_always_candidate_witness :
    sampleNew.cid ∈ sampleUnrelated.mro ∧
    subclasscheck ((declareSubclass sampleNew ScrapyDeprecationWarning
        sampleFactory.2 2 "UserSub" "usermod" sampleFactory.1 []).2).cid
      sampleNew.cid (.cls sampleUnrelated) = .ok true :=
  ⟨by decide,
   (c10_new_class_always_candidate sampleNew ScrapyDeprecationWarning
      sampleFactory.2 2 "UserSub" "usermod" sampleFactory.1 [] 1 "OldName"
      "oldmod" none none sampleUnrelated (by decide)).1⟩

lemma strContains_instance_msg_cls (a b : String) :
    strContains (instance_warn_message a b) a := by
  unfold instance_warn_message
  apply strContains_append_left
  apply strContains_append_left
  apply strContains_append_left
  exact strContains_self a

lemma strContains_instance_msg_new (a b : String) :
    strContains (instance_warn_message a b) b := by
  unfold instance_warn_message
  apply strContains_append_left
  exact strContains_append_right _ _ _ (strContains_self b)

/-- C2: instantiating the factory's root emits exactly one
instance-deprecation warning, formatted from the instance template with
the fully-qualified paths of the root and of `new_class`, and then
normal construction proceeds; instantiating any other class — in
particular a user-declared subclass of the root — emits none. -/
theorem c2_instantiation_warns_only_root (rootId : Nat) (name im : String)
    (N : ClassObj) (d : Option (List (String × Nat))) (wc : String)
    (cm : Option String) (R : ClassObj) (st : FactoryState)
    (hRst : create_deprecated_class rootId name im N d wc cm = (R, st))
    (sid : Nat) (sname smodule : String) (sdict : List (String × Nat))
    (hsid : sid ≠ rootId) :
    (DeprecatedClass_call N wc st R).1.warnings =
        st.warnings ++ [⟨instance_warn_message (_clspath R) (_clspath N), wc, 2⟩]
    ∧ strContains (instance_warn_message (_clspath R) (_clspath N)) (_clspath R)
    ∧ strContains (instance_warn_message (_clspath R) (_clspath N)) (_clspath N)
    ∧ (DeprecatedClass_call N wc st R).2 = ⟨R, R⟩
    ∧ (∀ cls : ClassObj, cls.cid ≠ rootId →
        (DeprecatedClass_call N wc st cls).1.warnings = st.warnings)
    ∧ (DeprecatedClass_call N wc
          (declareSubclass N wc st sid sname smodule R sdict).1
          (declareSubclass N wc st sid sname smodule R sdict).2).1.warnings =
        (declareSubclass N wc st sid sname smodule R sdict).1.warnings := by
  have h := create_deprecated_class_eq rootId name im N d wc cm
  rw [hRst] at h
  injection h with hR hst
  have hdep : st.deprecated_class = some R := by rw [hst, hR]
  have hRcid : R.cid = rootId := by rw [hR]
  refine ⟨?_, strContains_instance_msg_cls _ _, strContains_instance_msg_new _ _,
    rfl, ?_, ?_⟩
  · simp [DeprecatedClass_call, hdep]
  · intro cls hcls
    have hne : R.cid ≠ cls.cid := by rw [hRcid]; exact Ne.symm hcls
    simp [DeprecatedClass_call, hdep, hne]
  · simp only [declareSubclass]
    rw [constructClass_snd]
    have hdep' := constructClass_deprecated_class N wc st
      ⟨sid, sname, smodule, [R.cid], sid :: R.mro, sdict⟩
    rw [hdep] at hdep'
    simp only [Option.getD_some] at hdep'
    have hne : R.cid ≠ sid := by rw [hRcid]; exact Ne.symm hsid
    simp [DeprecatedClass_call, hdep', hne]

/-- Witness for C2 at `sampleFactory`: instantiating the root appends
exactly the instance warning. -/
theorem c2_instantiation_warns_only_root_witness :
    (2 : Nat) ≠ 1 ∧
    (DeprecatedClass_call sampleNew ScrapyDeprecationWarning sampleFactory.2
        sampleFactory.1).1.warnings =
      sampleFactory.2.warnings ++
        [⟨instance_warn_message (_clspath sampleFactory.1) (_clspath sampleNew),
          ScrapyDeprecationWarning, 2⟩] :=
  ⟨by decide,
   (c2_instantiation_warns_only_root 1 "OldName" "oldmod" sampleNew none
      ScrapyDeprecationWarning none sampleFactory.1 sampleFactory.2 rfl
      2 "UserSub" "usermod" [] (by decide)).1⟩

/-- C3: constructing any class through the factory's type-constructor
while it already has a root, with a class that is not that root, emits
exactly one subclass-deprecation warning whose message contains the
fully-qualified paths of the new subclass, of the root and of
`new_class`; the root's own construction (state without a root yet)
emits none. -/
theorem c3_subclass_warning (N : ClassObj) (wc : String) (st : FactoryState)
    (old c : ClassObj) (h : st.deprecated_class = some old)
    (hne : c.cid ≠ old.cid) (st₀ : FactoryState) (c₀ : ClassObj)
    (h₀ : st₀.deprecated_class = none) :
    (constructClass N wc st c).1.warnings = st.warnings ++
        [⟨subclass_warn_message (_clspath c) (_clspath old) (_clspath N), wc, 2⟩]
    ∧ strContains (subclass_warn_message (_clspath c) (_clspath old) (_clspath N))
        (_clspath c)
    ∧ strContains (subclass_warn_message (_clspath c) (_clspath old) (_clspath N))
        (_clspath old)
    ∧ strContains (subclass_warn_message (_clspath c) (_clspath old) (_clspath N))
        (_clspath N)
    ∧ (constructClass N wc st₀ c₀).1.warnings = st₀.warnings := by
  refine ⟨?_, strContains_subclass_msg_cls _ _ _, strContains_subclass_msg_old _ _ _,
    strContains_subclass_msg_new _ _ _, ?_⟩
  · rw [constructClass_fst_derived N wc st old c h hne]
  · rw [constructClass_fst_none N wc st₀ c₀ h₀]

/-- Witness for C3: declaring `sampleSub` against `sampleFactory`'s
state appends exactly the subclass warning. -/
theorem c3_subclass_warning_witness :
    sampleSub.cid ≠ sampleFactory.1.cid ∧
    (constructClass sampleNew ScrapyDeprecationWarning sampleFactory.2
        sampleSub).1.warnings =
      sampleFactory.2.warnings ++
        [⟨subclass_warn_message (_clspath sampleSub) (_clspath sampleFactory.1)
            (_clspath sampleNew), ScrapyDeprecationWarning, 2⟩] :=
  ⟨by decide,
   (c3_subclass_warning sampleNew ScrapyDeprecationWarning sampleFactory.2
      sampleFactory.1 sampleSub rfl (by decide) ⟨none, []⟩ sampleNew rfl).1⟩

lemma constructMany_deprecated_class (N : ClassObj) (wc : String) (r : ClassObj)
    (cs : List ClassObj) :
    ∀ st : FactoryState, st.deprecated_class = some r →
      (constructMany N wc st cs).deprecated_class = some r := by
  induction cs with
  | nil => intro st h; simpa [constructMany] using h
  | cons c cs ih =>
      intro st h
      have h' : (constructClass N wc st c).1.deprecated_class = some r := by
        rw [constructClass_deprecated_class, h]; rfl
      simpa [constructMany] using ih _ h'

/-- C5: each factory call marks exactly one root: the first class
constructed through its type-constructor becomes the root, the mark is
never reassigned by later constructions, and every later class (not the
root) goes down the subclass-warning path. -/
theorem c5_single_root_invariant (rootId : Nat) (name im : String)
    (N : ClassObj) (d : Option (List (String × Nat))) (wc : String)
    (cm : Option String) (R : ClassObj) (st : FactoryState)
    (hRst : create_deprecated_class rootId name im N d wc cm = (R, st))
    (st₀ : FactoryState) (c : ClassObj) (h₀ : st₀.deprecated_class = none)
    (st₁ : FactoryState) (r c₁ : ClassObj) (h₁ : st₁.deprecated_class = some r)
    (hc₁ : c₁.cid ≠ r.cid) (cs : List ClassObj) :
    (constructClass N wc st₀ c).1.deprecated_class = some c
    ∧ (constructClass N wc st₁ c₁).1.deprecated_class = some r
    ∧ st.deprecated_class = some R
    ∧ (constructMany N wc st cs).deprecated_class = some R
    ∧ (constructClass N wc st₁ c₁).1.warnings = st₁.warnings ++
        [⟨subclass_warn_message (_clspath c₁) (_clspath r) (_clspath N), wc, 2⟩] := by
  have h := create_deprecated_class_eq rootId name im N d wc cm
  rw [hRst] at h
  injection h with hR hst
  have hdep : st.deprecated_class = some R := by rw [hst, hR]
  refine ⟨?_, ?_, hdep, ?_, ?_⟩
  · rw [constructClass_deprecated_class, h₀]; rfl
  · rw [constructClass_deprecated_class, h₁]; rfl
  · exact constructMany_deprecated_class N wc R cs st hdep
  · rw [constructClass_fst_derived N wc st₁ r c₁ h₁ hc₁]

/-- Witness for C5: after the factory call and one later subclass
construction, the root mark is still the original root. -/
theorem c5_single_root_invariant_witness :
    sampleSub.cid ≠ sampleFactory.1.cid ∧
    (constructMany sampleNew ScrapyDeprecationWarning sampleFactory.2
        [sampleSub]).deprecated_class = some sampleFactory.1 :=
  ⟨by decide,
   (c5_single_root_invariant 1 "OldName" "oldmod" sampleNew none
      ScrapyDeprecationWarning none sampleFactory.1 sampleFactory.2 rfl
      ⟨none, []⟩ sampleNew rfl sampleFactory.2 sampleFactory.1 sampleSub rfl
      (by decide) [sampleSub]).2.2.2.1⟩

/-- C6: two independent factory calls have independent roots and warning
channels: each call's state records its own root, a subclass warning
triggered on the first call is formatted from the first call's root and
`new_class` only, and the second call's channel holds nothing until its
own root is instantiated, which names only its own classes. -/
theorem c6_independent_factories
    (rootId₁ : Nat) (name₁ im₁ : String) (N₁ : ClassObj)
    (d₁ : Option (List (String × Nat))) (wc₁ : String) (cm₁ : Option String)
    (rootId₂ : Nat) (name₂ im₂ : String) (N₂ : ClassObj)
    (d₂ : Option (List (String × Nat))) (wc₂ : String) (cm₂ : Option String)
    (R₁ : ClassObj) (st₁ : FactoryState) (R₂ : ClassObj) (st₂ : FactoryState)
    (h₁ : create_deprecated_class rootId₁ name₁ im₁ N₁ d₁ wc₁ cm₁ = (R₁, st₁))
    (h₂ : create_deprecated_class rootId₂ name₂ im₂ N₂ d₂ wc₂ cm₂ = (R₂, st₂))
    (sid : Nat) (sname smod : String) (sdict : List (String × Nat))
    (hsid : sid ≠ rootId₁) :
    st₁.deprecated_class = some R₁
    ∧ st₂.deprecated_class = some R₂
    ∧ (declareSubclass N₁ wc₁ st₁ sid sname smod R₁ sdict).1.warnings =
        [⟨subclass_warn_message
            (_clspath (declareSubclass N₁ wc₁ st₁ sid sname smod R₁ sdict).2)
            (_clspath R₁) (_clspath N₁), wc₁, 2⟩]
    ∧ st₂.warnings = []
    ∧ (DeprecatedClass_call N₂ wc₂ st₂ R₂).1.warnings =
        [⟨instance_warn_message (_clspath R₂) (_clspath N₂), wc₂, 2⟩] := by
  have he₁ := create_deprecated_class_eq rootId₁ name₁ im₁ N₁ d₁ wc₁ cm₁
  rw [h₁] at he₁
  injection he₁ with hR₁ hst₁
  have he₂ := create_deprecated_class_eq rootId₂ name₂ im₂ N₂ d₂ wc₂ cm₂
  rw [h₂] at he₂
  injection he₂ with hR₂ hst₂
  have hdep₁ : st₁.deprecated_class = some R₁ := by rw [hst₁, hR₁]
  have hdep₂ : st₂.deprecated_class = some R₂ := by rw [hst₂, hR₂]
  have hw₁ : st₁.warnings = [] := by rw [hst₁]
  have hw₂ : st₂.warnings = [] := by rw [hst₂]
  have hne : (⟨sid, sname, smod, [R₁.cid], sid :: R₁.mro, sdict⟩ : ClassObj).cid
      ≠ R₁.cid := by
    have : R₁.cid = rootId₁ := by rw [hR₁]
    simpa [this] using hsid
  refine ⟨hdep₁, hdep₂, ?_, hw₂, ?_⟩
  · simp only [declareSubclass]
    rw [constructClass_snd,
      constructClass_fst_derived N₁ wc₁ st₁ R₁ _ hdep₁ hne, hw₁]
    simp
  · simp [DeprecatedClass_call, hdep₂, hw₂]

/-- Witness for C6 at the two sample factories: instantiating the second
root names only the second factory's classes, in its own channel. -/
theorem c6_independent_factories_witness :
    (2 : Nat) ≠ 1 ∧
    (DeprecatedClass_call sampleNew2 ScrapyDeprecationWarning sampleFactory2.2
        sampleFactory2.1).1.warnings =
      [⟨instance_warn_message (_clspath sampleFactory2.1) (_clspath sampleNew2),
        ScrapyDeprecationWarning, 2⟩] :=
  ⟨by decide,
   (c6_independent_factories 1 "OldName" "oldmod" sampleNew none
      ScrapyDeprecationWarning none 5 "OldB" "modB" sampleNew2 none
      ScrapyDeprecationWarning none sampleFactory.1 sampleFactory.2
      sampleFactory2.1 sampleFactory2.2 rfl rfl 2 "UserSub" "usermod" []
      (by decide)).2.2.2.2⟩

/-- C7: the attribute notifier always succeeds and emits exactly one
warning of the library's deprecation category whose message contains the
old attribute name, the new attribute name and the version label, which
defaults to the fixed constant `'0.12'` when omitted. -/
theorem c7_attribute_always_one_warning (obj : PyInstance)
    (oldattr newattr version : String) :
    («attribute» obj oldattr newattr version).length = 1
    ∧ (∀ w ∈ «attribute» obj oldattr newattr version,
        w.category = ScrapyDeprecationWarning
        ∧ strContains w.message oldattr
        ∧ strContains w.message newattr
        ∧ strContains w.message version)
    ∧ «attribute» obj oldattr newattr = «attribute» obj oldattr newattr "0.12" := by
  refine ⟨rfl, ?_, rfl⟩
  intro w hw
  simp only [«attribute», List.mem_singleton] at hw
  subst hw
  refine ⟨rfl, ?_, ?_, ?_⟩
  · apply strContains_append_left
    apply strContains_append_left
    apply strContains_append_left
    apply strContains_append_left
    apply strContains_append_left
    apply strContains_append_left
    apply strContains_append_left
    apply strContains_append_left
    exact strContains_append_right _ _ _ (strContains_self oldattr)
  · apply strContains_append_left
    exact strContains_append_right _ _ _ (strContains_self newattr)
  · apply strContains_append_left
    apply strContains_append_left
    apply strContains_append_left
    apply strContains_append_left
    apply strContains_append_left
    exact strContains_append_right _ _ _ (strContains_self version)
